import Mathlib

/-!
Shallow embedding of the VRRP reconciliation and state-synchronization code in
`vendor/github.com/coreswitch/openconfigd/config/vrrp.go`, together with
theorems settling the claims about it.

External collaborators (the etcd client, the `process` package, the CLI
`ExecLine`/`Commit` subsystem, the JSON/mapstructure decoders and the
filesystem) are modelled by injected outcomes and by an explicit effect trace,
exactly at the call boundaries the Go code uses.
-/

set_option linter.unusedVariables false

namespace Zebra

/-- Modelled from the spec: the `Vrrp` virtual-router definition struct is
declared elsewhere in the openconfigd repository (only its uses appear in
`vrrp.go`).  Fields follow the spec data model and the field accesses in
`vrrp.go`: identifier `Vrid`, bound `Interface`, `Priority`, advertisement
interval, `Preempt` flag, role `State`, `VirtualAddress`, unicast peer list,
plus the `Vrf` and `Name` fields written by `VrrpServerExec` before
rendering. -/
structure UnicastPeer where
  Address : String
  deriving DecidableEq

structure Vrrp where
  Vrid : Nat
  Interface : String
  Priority : Nat
  AdvertisementInterval : Nat
  Preempt : Bool
  State : String
  VirtualAddress : String
  UnicastPeerList : List UnicastPeer
  Vrf : String := ""
  Name : String := ""
  deriving DecidableEq

/-- `type VrrpConfig []Vrrp` -/
abbrev VrrpConfig := List Vrrp

/-- `type VrrpState struct` in `vrrp.go`: the per-interface published state
record `{state, changed_at}`. -/
structure VrrpState where
  state : String
  changed_at : Int
  deriving DecidableEq

/-- The decoded shape of the document stored at the fixed etcd state path.
`nullDoc` is the JSON text `null` (what `json.Marshal` produces from a nil Go
map); `mapDoc` is a JSON object, one entry per interface name.  The key being
absent from the store is `Option.none` at the use sites. -/
inductive StoredDoc where
  | nullDoc : StoredDoc
  | mapDoc : List (String × VrrpState) → StoredDoc
  deriving DecidableEq

/-- Injected outcomes of the external etcd calls made by `VrrpStateDelete`:
connection dial, `Get`, JSON unmarshal of the stored value, and the final
`Put`/`Delete`. -/
structure DeleteFaults where
  connOk : Bool
  getOk : Bool
  decodeOk : Bool
  writeOk : Bool
  deriving DecidableEq

def allOkFaults : DeleteFaults := ⟨true, true, true, true⟩

/-- Observable events of one `VrrpStateDelete` call, in the order the Go code
performs them (the two `defer`s run last-in-first-out: unlock, then close). -/
inductive EtcdEvent where
  | connect : EtcdEvent
  | lock : EtcdEvent
  | get : EtcdEvent
  | put : EtcdEvent
  | del : EtcdEvent
  | unlock : EtcdEvent
  | close : EtcdEvent
  deriving DecidableEq

/-- `VrrpStateDelete(ifName)` from `vrrp.go`, as a function from the stored
document (at the fixed state path) to the new stored document plus the event
trace.  Control flow follows the source:
connect (early return on failure, before any defer); defer close; lock with
the error ignored; defer unlock; `Get` (early return on failure); unmarshal of
the returned value, only run when a value exists (early return on failure);
`delete(map, ifName)`; marshal; if the marshalled text is exactly the empty
object, `Delete` the key, else `Put` the marshalled text.  A nil Go map
marshals to the JSON text `null`, not to an empty object, so the nil-map case
takes the `Put` branch.  A failed `Put`/`Delete` is only logged. -/
def VrrpStateDelete (f : DeleteFaults) (ifName : String) (store : Option StoredDoc) :
    Option StoredDoc × List EtcdEvent :=
  if f.connOk = false then
    (store, [])
  else if f.getOk = false then
    (store, [.connect, .lock, .get, .unlock, .close])
  else if store.isSome && !f.decodeOk then
    (store, [.connect, .lock, .get, .unlock, .close])
  else
    let vrrpStatusMap : Option (List (String × VrrpState)) :=
      match store with
      | none => none
      | some StoredDoc.nullDoc => none
      | some (StoredDoc.mapDoc l) => some l
    let afterDelete := Option.map (fun l => l.filter (fun p => p.1 != ifName)) vrrpStatusMap
    match afterDelete with
    | none =>
        (if f.writeOk then some StoredDoc.nullDoc else store,
         [.connect, .lock, .get, .put, .unlock, .close])
    | some [] =>
        (if f.writeOk then none else store,
         [.connect, .lock, .get, .del, .unlock, .close])
    | some l =>
        (if f.writeOk then some (StoredDoc.mapDoc l) else store,
         [.connect, .lock, .get, .put, .unlock, .close])

/-- `type VrrpInstance struct` in `vrrp.go`: runtime pairing of interface
name, virtual-router id, and the process handle (`none` models a nil
`*process.Process`).  Process handles are modelled as the `Nat` id assigned
when the process was registered. -/
structure VrrpInstance where
  IfName : String
  VrId : Nat
  Process : Option Nat
  deriving DecidableEq

/-- The process-wide mutable state touched by `vrrp.go`:
`VrrpInstanceMap` (Go `map[string][]*VrrpInstance`, modelled as an
association list consulted only through `regGet`/`regSet`), the set of
handles currently registered with the `process` package, a counter providing
fresh handles, and the document stored at the fixed etcd state path. -/
structure SysState where
  VrrpInstanceMap : List (String × List VrrpInstance)
  procTable : List Nat
  nextProc : Nat
  store : Option StoredDoc
  deriving DecidableEq

/-- Go map read `VrrpInstanceMap[vrf]`: the zero value of a slice (empty) when
the key is absent. -/
def regGet (reg : List (String × List VrrpInstance)) (vrf : String) :
    List VrrpInstance :=
  match reg.find? (fun p => p.1 == vrf) with
  | some p => p.2
  | none => []

/-- Go map write `VrrpInstanceMap[vrf] = v`. -/
def regSet (reg : List (String × List VrrpInstance)) (vrf : String)
    (v : List VrrpInstance) : List (String × List VrrpInstance) :=
  (vrf, v) :: reg.filter (fun p => p.1 != vrf)

/-- Externally observable calls made during reconciliation and CLI sync:
a `VrrpInstance` appended to the registry slot, `process.ProcessRegister`,
`process.ProcessUnregister`, a `VrrpStateDelete` call, an `ExecLine` command,
and a `Commit`. -/
inductive Effect where
  | instAppend : String → String → Nat → Effect
  | procRegister : Nat → Effect
  | procUnregister : Nat → Effect
  | stateDelete : String → Effect
  | execLine : String → Effect
  | commit : Effect
  deriving DecidableEq

def isStateDeleteEff : Effect → Bool
  | .stateDelete _ => true
  | _ => false

def isInstAppendEff : Effect → Bool
  | .instAppend _ _ _ => true
  | _ => false

def isProcRegisterEff : Effect → Bool
  | .procRegister _ => true
  | _ => false

def isProcUnregisterEff : Effect → Bool
  | .procUnregister _ => true
  | _ => false

def isExecLineEff : Effect → Bool
  | .execLine _ => true
  | _ => false

/-- Injected outcomes of the external calls reconciliation makes: the combined
`json.Unmarshal` + `mapstructure.Decode` of the desired-state string, the
success of `os.Create` on the per-interface config file inside
`VrrpServerExec` (keyed by the interface name), and the etcd outcomes used by
the nested `VrrpStateDelete` calls. -/
structure Env where
  decode : String → Option VrrpConfig
  createOk : String → Bool
  faults : DeleteFaults

/-- `VrrpServerExec` + `VrrpServerStart` from `vrrp.go`, restricted to their
observable outcome: when the config file can be created, the template is
rendered (see `vrrpConfigRenderLines`), a fresh `keepalived` process is
registered and its handle returned; when `os.Create` fails the error is
logged and nil is returned.  The symlink and file writes are filesystem
effects outside this model. -/
def VrrpServerExec (env : Env) (vrrp : Vrrp) (vrf : String) (st : SysState) :
    Option Nat × SysState × List Effect :=
  if env.createOk vrrp.Interface then
    let h := st.nextProc
    (some h,
     { st with procTable := st.procTable ++ [h], nextProc := h + 1 },
     [Effect.procRegister h])
  else
    (none, st, [])

/-- Teardown loop at the head of `VrrpJsonConfig`: for every existing instance
under the VRF, unregister its process when live, then call
`VrrpStateDelete` on its interface. -/
def teardownLoop (env : Env) (insts : List VrrpInstance) (st : SysState) :
    SysState × List Effect :=
  match insts with
  | [] => (st, [])
  | i :: rest =>
      let p1 : SysState × List Effect :=
        match i.Process with
        | some h => ({ st with procTable := st.procTable.erase h },
                     [Effect.procUnregister h])
        | none => (st, [])
      let st2 := { p1.1 with store := (VrrpStateDelete env.faults i.IfName p1.1.store).1 }
      let r := teardownLoop env rest st2
      (r.1, p1.2 ++ Effect.stateDelete i.IfName :: r.2)

/-- Creation loop at the tail of `VrrpJsonConfig`: for each definition, an
instance carrying the definition's interface and id is appended to the VRF
slot with a nil process handle, then `VrrpServerExec` runs and its result is
assigned to that instance's `Process` field (pointer write, modelled as
patching the just-appended last element of the slot). -/
def createLoop (env : Env) (vrf : String) (cfgs : List Vrrp) (st : SysState) :
    SysState × List Effect :=
  match cfgs with
  | [] => (st, [])
  | vrrp :: rest =>
      let inst : VrrpInstance :=
        { IfName := vrrp.Interface, VrId := vrrp.Vrid, Process := none }
      let st1 := { st with
        VrrpInstanceMap :=
          regSet st.VrrpInstanceMap vrf (regGet st.VrrpInstanceMap vrf ++ [inst]) }
      let r2 := VrrpServerExec env vrrp vrf st1
      let st2 := r2.2.1
      let slot := regGet st2.VrrpInstanceMap vrf
      let st3 := { st2 with
        VrrpInstanceMap :=
          regSet st2.VrrpInstanceMap vrf
            (slot.dropLast ++ [{ inst with Process := r2.1 }]) }
      let r4 := createLoop env vrf rest st3
      (r4.1, Effect.instAppend vrf vrrp.Interface vrrp.Vrid :: (r2.2.2 ++ r4.2))

/-- Result of `VrrpJsonConfig`: whether a non-nil error was returned, the
final mutable state, and the trace of external effects. -/
structure JsonConfigResult where
  err : Bool
  state : SysState
  effects : List Effect
  deriving DecidableEq

/-- `VrrpJsonConfig(path, str)` from `vrrp.go`.  Decode failure (either
unmarshal stage) returns the error before any mutation; a path shorter than 3
segments returns nil before any mutation; otherwise the VRF is `path[2]`,
existing instances are torn down, the slot is reset, and unless the decoded
config is empty the creation loop runs. -/
def VrrpJsonConfig (env : Env) (path : List String) (str : String) (st : SysState) :
    JsonConfigResult :=
  match env.decode str with
  | none => ⟨true, st, []⟩
  | some vrrpConfig =>
      if path.length < 3 then ⟨false, st, []⟩
      else
        let vrf := path.getD 2 ""
        let r1 := teardownLoop env (regGet st.VrrpInstanceMap vrf) st
        let st2 := { r1.1 with VrrpInstanceMap := regSet r1.1.VrrpInstanceMap vrf [] }
        if vrrpConfig.length = 0 then ⟨false, st2, r1.2⟩
        else
          let r3 := createLoop env vrf vrrpConfig st2
          ⟨false, r3.1, r1.2 ++ r3.2⟩

/-- The per-definition `set` command lines emitted by `VrrpVrfSync`, in source
order: id, interface (if set), advertisement interval (if nonzero), preempt
(if true), priority (if nonzero), state master/backup, virtual address (if
set), one line per unicast peer. -/
def vrrpVrfSyncSetLines (vrfId : Nat) (vrrp : Vrrp) : List Effect :=
  let pre := "set vrf name vrf" ++ toString vrfId ++ " vrrp " ++ toString vrrp.Vrid
  [Effect.execLine pre]
  ++ (if vrrp.Interface != "" then
        [Effect.execLine (pre ++ " interface " ++ vrrp.Interface)] else [])
  ++ (if vrrp.AdvertisementInterval != 0 then
        [Effect.execLine (pre ++ " advertisement-interval "
          ++ toString vrrp.AdvertisementInterval)] else [])
  ++ (if vrrp.Preempt then [Effect.execLine (pre ++ " preempt")] else [])
  ++ (if vrrp.Priority != 0 then
        [Effect.execLine (pre ++ " priority " ++ toString vrrp.Priority)] else [])
  ++ (if vrrp.State == "master" then [Effect.execLine (pre ++ " state master")]
      else [Effect.execLine (pre ++ " state backup")])
  ++ (if vrrp.VirtualAddress != "" then
        [Effect.execLine (pre ++ " virtual-address " ++ vrrp.VirtualAddress)] else [])
  ++ vrrp.UnicastPeerList.map
      (fun peer => Effect.execLine (pre ++ " unicast-peer " ++ peer.Address))

/-- `VrrpVrfSync(vrfId, cfg)` from `vrrp.go`: one `delete` command per
instance currently registered under `vrf<vrfId>`, then the `set` commands for
every incoming definition, then one `Commit`.  The registry is read, not
modified. -/
def VrrpVrfSync (reg : List (String × List VrrpInstance)) (vrfId : Nat)
    (cfgVrrp : List Vrrp) : List Effect :=
  let vrf := "vrf" ++ toString vrfId
  (regGet reg vrf).map (fun inst =>
    Effect.execLine ("delete vrf name vrf" ++ toString vrfId ++ " vrrp "
      ++ toString inst.VrId))
  ++ cfgVrrp.flatMap (vrrpVrfSyncSetLines vrfId)
  ++ [Effect.commit]

/-- Per-instance body of the `VrrpVrfDelete` loop: unregister the process when
live, emit the `delete` command, `Commit`, then `VrrpStateDelete` on the
instance's interface. -/
def vrfDeleteLoop (env : Env) (vrfId : Nat) (insts : List VrrpInstance)
    (st : SysState) : SysState × List Effect :=
  match insts with
  | [] => (st, [])
  | i :: rest =>
      let p1 : SysState × List Effect :=
        match i.Process with
        | some h => ({ st with procTable := st.procTable.erase h },
                     [Effect.procUnregister h])
        | none => (st, [])
      let e2 := [Effect.execLine ("delete vrf name vrf" ++ toString vrfId
                   ++ " vrrp " ++ toString i.VrId), Effect.commit]
      let st2 := { p1.1 with store := (VrrpStateDelete env.faults i.IfName p1.1.store).1 }
      let r := vrfDeleteLoop env vrfId rest st2
      (r.1, p1.2 ++ e2 ++ Effect.stateDelete i.IfName :: r.2)

/-- `VrrpVrfDelete(vrfId)` from `vrrp.go`.  The loop clears each instance's
`Process` pointer in place; the slot itself stays in the map, so the final
registry holds the same instances with nil handles. -/
def VrrpVrfDelete (env : Env) (vrfId : Nat) (st : SysState) :
    SysState × List Effect :=
  let vrf := "vrf" ++ toString vrfId
  let slot := regGet st.VrrpInstanceMap vrf
  let r := vrfDeleteLoop env vrfId slot st
  ({ r.1 with
      VrrpInstanceMap :=
        regSet r.1.VrrpInstanceMap vrf
          (slot.map (fun i => { i with Process := none })) },
   r.2)

/-- The rendered keepalived configuration artifact produced by executing
`vrrpConfigTemplateText` on one definition, line by line.  Conditional
template actions that sit inside a line leave an empty line when false;
the peer range emits one line per peer; the trailing empty string is the
file's final newline. -/
def vrrpConfigRenderLines (vrrp : Vrrp) : List String :=
  [ "# Do not edit!",
    "# This file is automatically generated from OpenConfigd.",
    "#",
    "vrrp_script bgp_track \x7b",
    "    script /usr/bin/keepalived_track.sh",
    "    interval 1",
    "    fall 3",
    "    rise 3",
    (if vrrp.Preempt then "    weight 50" else ""),
    "\x7d",
    "",
    "vrrp_instance " ++ vrrp.Name ++ " \x7b",
    "    notify /usr/bin/keepalived_" ++ vrrp.State ++ "_" ++ vrrp.Vrf ++ ".sh",
    "    state " ++ (if vrrp.State == "master" then "MASTER" else "BACKUP"),
    "    interface " ++ vrrp.Vrf,
    "    virtual_router_id " ++ toString vrrp.Vrid,
    "    priority " ++ toString vrrp.Priority,
    "    advert_int " ++ (if vrrp.AdvertisementInterval == 0 then "10"
                          else toString vrrp.AdvertisementInterval),
    "    use_vmac",
    "    vmac_xmit_base",
    (if vrrp.Preempt then "" else "    nopreempt"),
    "    unicast_peer \x7b" ]
  ++ vrrp.UnicastPeerList.map (fun peer => "        " ++ peer.Address)
  ++ [ "",
    "    \x7d",
    "    virtual_ipaddress \x7b",
    "        " ++ vrrp.VirtualAddress ++ " dev " ++ vrrp.Interface,
    "    \x7d",
    "    track_script \x7b",
    "        bgp_track",
    "    \x7d",
    "    track_interface \x7b",
    "        " ++ vrrp.Interface,
    "    \x7d",
    "\x7d",
    "" ]

/-- The rendered artifact as one string. -/
def vrrpConfigRender (vrrp : Vrrp) : String :=
  String.intercalate "\n" (vrrpConfigRenderLines vrrp)

/-- Closed form of the effect trace of `teardownLoop`. -/
def teardownEffects : List VrrpInstance → List Effect
  | [] => []
  | i :: rest =>
      (match i.Process with
       | some h => [Effect.procUnregister h]
       | none => []) ++ Effect.stateDelete i.IfName :: teardownEffects rest

/-- Closed form of the VRF slot contents built by `createLoop`: one instance
per definition, interface and id copied, process handle present exactly when
the config file could be created, numbered consecutively from `c`. -/
def instancesOf (env : Env) (c : Nat) : List Vrrp → List VrrpInstance
  | [] => []
  | v :: rest =>
      if env.createOk v.Interface then
        { IfName := v.Interface, VrId := v.Vrid, Process := some c }
          :: instancesOf env (c + 1) rest
      else
        { IfName := v.Interface, VrId := v.Vrid, Process := none }
          :: instancesOf env c rest

/-- An initial state with nothing registered, used for concrete runs. -/
def sysState0 : SysState :=
  { VrrpInstanceMap := [], procTable := [], nextProc := 0, store := none }

/-- Environment whose desired-state decoder rejects every input. -/
def envDecodeFail : Env :=
  { decode := fun _ => none, createOk := fun _ => true, faults := allOkFaults }

/-- Environment whose decoder yields the empty definition list and whose
config-file creation always succeeds. -/
def envEmptyDoc : Env :=
  { decode := fun _ => some [], createOk := fun _ => true, faults := allOkFaults }

/-- One concrete virtual-router definition. -/
def vrrpDefA : Vrrp :=
  { Vrid := 1, Interface := "eth0", Priority := 100, AdvertisementInterval := 0,
    Preempt := false, State := "master", VirtualAddress := "",
    UnicastPeerList := [] }

/-- A second concrete definition, with a nonzero advertisement interval. -/
def vrrpDefB : Vrrp :=
  { Vrid := 7, Interface := "eth2", Priority := 0, AdvertisementInterval := 25,
    Preempt := true, State := "backup", VirtualAddress := "10.0.0.1",
    UnicastPeerList := [⟨"10.0.0.2"⟩] }

/-- Environment whose decoder yields `[vrrpDefA, vrrpDefB]` and whose
config-file creation fails for every interface. -/
def envTwoDefsNoCreate : Env :=
  { decode := fun _ => some [vrrpDefA, vrrpDefB], createOk := fun _ => false,
    faults := allOkFaults }

/-- A concrete state with one VRF slot holding a live instance. -/
def sysStateOneLive : SysState :=
  { VrrpInstanceMap := [("vrf1", [{ IfName := "eth9", VrId := 4, Process := some 5 }])],
    procTable := [5], nextProc := 6, store := none }

/-- A concrete state whose `vrf3` slot holds one instance with id 2. -/
def sysStateVrf3 : SysState :=
  { VrrpInstanceMap := [("vrf3", [{ IfName := "eth1", VrId := 2, Process := none }])],
    procTable := [], nextProc := 0, store := none }

/-- A concrete state whose `vrf2` slot holds two instances, one with a live
process handle and one with a nil handle. -/
def sysStateVrf2Two : SysState :=
  { VrrpInstanceMap :=
      [("vrf2", [{ IfName := "eth3", VrId := 10, Process := some 8 },
                 { IfName := "eth4", VrId := 11, Process := none }])],
    procTable := [8], nextProc := 9, store := none }

theorem teardownLoop_registry (env : Env) (insts : List VrrpInstance) (st : SysState) :
    (teardownLoop env insts st).1.VrrpInstanceMap = st.VrrpInstanceMap := by
  induction insts generalizing st with
  | nil => rfl
  | cons i rest ih =>
      cases hp : i.Process <;> simp [teardownLoop, hp, ih]

theorem teardownLoop_nextProc (env : Env) (insts : List VrrpInstance) (st : SysState) :
    (teardownLoop env insts st).1.nextProc = st.nextProc := by
  induction insts generalizing st with
  | nil => rfl
  | cons i rest ih =>
      cases hp : i.Process <;> simp [teardownLoop, hp, ih]

theorem teardownLoop_effects (env : Env) (insts : List VrrpInstance) (st : SysState) :
    (teardownLoop env insts st).2 = teardownEffects insts := by
  induction insts generalizing st with
  | nil => rfl
  | cons i rest ih =>
      cases hp : i.Process <;> simp [teardownLoop, teardownEffects, hp, ih]

theorem teardownEffects_filter_stateDelete (insts : List VrrpInstance) :
    (teardownEffects insts).filter isStateDeleteEff
      = insts.map (fun i => Effect.stateDelete i.IfName) := by
  induction insts with
  | nil => rfl
  | cons i rest ih =>
      cases hp : i.Process <;>
        simp [teardownEffects, hp, ih, isStateDeleteEff, List.filter_append]

theorem teardownEffects_filter_instAppend (insts : List VrrpInstance) :
    (teardownEffects insts).filter isInstAppendEff = [] := by
  induction insts with
  | nil => rfl
  | cons i rest ih =>
      cases hp : i.Process <;>
        simp [teardownEffects, hp, ih, isInstAppendEff, List.filter_append]

theorem teardownEffects_filter_procRegister (insts : List VrrpInstance) :
    (teardownEffects insts).filter isProcRegisterEff = [] := by
  induction insts with
  | nil => rfl
  | cons i rest ih =>
      cases hp : i.Process <;>
        simp [teardownEffects, hp, ih, isProcRegisterEff, List.filter_append]

theorem regGet_regSet_self (reg : List (String × List VrrpInstance)) (vrf : String)
    (v : List VrrpInstance) : regGet (regSet reg vrf v) vrf = v := by
  simp [regGet, regSet, List.find?]

theorem createLoop_slot (env : Env) (vrf : String) (cfgs : List Vrrp) :
    ∀ st : SysState,
      regGet ((createLoop env vrf cfgs st).1).VrrpInstanceMap vrf
        = regGet st.VrrpInstanceMap vrf ++ instancesOf env st.nextProc cfgs := by
  induction cfgs with
  | nil => intro st; simp [createLoop, instancesOf]
  | cons v rest ih =>
      intro st
      by_cases hc : env.createOk v.Interface <;>
        simp [createLoop, VrrpServerExec, instancesOf, hc, regGet_regSet_self,
          List.dropLast_concat, ih, List.append_assoc]

theorem instancesOf_map_pair (env : Env) (cfgs : List Vrrp) :
    ∀ c : Nat,
      (instancesOf env c cfgs).map (fun i => (i.IfName, i.VrId))
        = cfgs.map (fun v => (v.Interface, v.Vrid)) := by
  induction cfgs with
  | nil => intro c; rfl
  | cons v rest ih =>
      intro c
      by_cases hc : env.createOk v.Interface <;> simp [instancesOf, hc, ih]

theorem instancesOf_map_isSome (env : Env) (cfgs : List Vrrp) :
    ∀ c : Nat,
      (instancesOf env c cfgs).map (fun i => i.Process.isSome)
        = cfgs.map (fun v => env.createOk v.Interface) := by
  induction cfgs with
  | nil => intro c; rfl
  | cons v rest ih =>
      intro c
      by_cases hc : env.createOk v.Interface <;> simp [instancesOf, hc, ih]

theorem instancesOf_get?_of_createFail (env : Env) (cfgs : List Vrrp) :
    ∀ (c k : Nat) (v : Vrrp), cfgs[k]? = some v →
      env.createOk v.Interface = false →
      (instancesOf env c cfgs)[k]?
        = some { IfName := v.Interface, VrId := v.Vrid, Process := none } := by
  induction cfgs with
  | nil => intro c k v h; simp at h
  | cons w rest ih =>
      intro c k v h hc
      cases k with
      | zero =>
          simp at h
          subst h
          simp [instancesOf, hc]
      | succ k =>
          simp at h
          by_cases hw : env.createOk w.Interface <;>
            simpa [instancesOf, hw] using ih _ k v h hc

/-- C1: evaluation of `VrrpStateDelete` at the failing input.  With the state
key absent and every store operation succeeding, the call leaves the key
present holding the JSON text `null` (because a nil Go map marshals to
`null`, not to the empty object the deletion check compares against), instead
of leaving the key absent as the claim requires. -/
theorem VrrpStateDelete_absent_key_puts_null :
    (VrrpStateDelete allOkFaults "eth0" none).1 = some StoredDoc.nullDoc := by
  decide

/-- C2: when the desired-state document fails to decode, `VrrpJsonConfig`
returns an error and performs no mutation: the registry, the process table,
the stored state, and the effect trace are all exactly as before the call. -/
theorem VrrpJsonConfig_decode_failure_is_pure_error (env : Env) (path : List String)
    (str : String) (st : SysState) (h : env.decode str = none) :
    VrrpJsonConfig env path str st = ⟨true, st, []⟩ := by
  simp [VrrpJsonConfig, h]

theorem VrrpJsonConfig_decode_failure_is_pure_error_witness :
    envDecodeFail.decode "bad" = none
    ∧ VrrpJsonConfig envDecodeFail ["vrf", "name", "vrf1"] "bad" sysStateOneLive
        = ⟨true, sysStateOneLive, []⟩ :=
  ⟨rfl, VrrpJsonConfig_decode_failure_is_pure_error envDecodeFail
    ["vrf", "name", "vrf1"] "bad" sysStateOneLive rfl⟩

/-- C9: with a decodable document and a configuration path of fewer than 3
segments, `VrrpJsonConfig` is a no-op: it returns without error and leaves
the registry, process table and stored state unchanged, with no effects. -/
theorem VrrpJsonConfig_short_path_noop (env : Env) (path : List String)
    (str : String) (st : SysState) (cfg : VrrpConfig)
    (hdec : env.decode str = some cfg) (hlen : path.length < 3) :
    VrrpJsonConfig env path str st = ⟨false, st, []⟩ := by
  simp [VrrpJsonConfig, hdec, hlen]

theorem VrrpJsonConfig_short_path_noop_witness :
    envEmptyDoc.decode "[]" = some [] ∧ ([ "vrf", "name" ] : List String).length < 3
    ∧ VrrpJsonConfig envEmptyDoc ["vrf", "name"] "[]" sysStateOneLive
        = ⟨false, sysStateOneLive, []⟩ :=
  ⟨rfl, by decide, VrrpJsonConfig_short_path_noop envEmptyDoc ["vrf", "name"] "[]"
    sysStateOneLive [] rfl (by decide)⟩

/-- C6: on every execution path of `VrrpStateDelete` that reaches lock
acquisition (the connection dial succeeded), the trace contains exactly one
unlock and one close, and ends with unlock immediately followed by close:
the lock is released on every exit, before the connection is closed. -/
theorem VrrpStateDelete_unlock_then_close (f : DeleteFaults) (ifName : String)
    (store : Option StoredDoc) (h : f.connOk = true) :
    (VrrpStateDelete f ifName store).2.count EtcdEvent.unlock = 1
    ∧ (VrrpStateDelete f ifName store).2.count EtcdEvent.close = 1
    ∧ (VrrpStateDelete f ifName store).2.reverse.take 2
        = [EtcdEvent.close, EtcdEvent.unlock] := by
  rcases f with ⟨co, go, dk, wo⟩
  simp only at h
  subst h
  cases go with
  | false => simp [VrrpStateDelete]
  | true =>
      cases store with
      | none => cases dk <;> simp [VrrpStateDelete]
      | some d =>
          cases dk with
          | false => cases d <;> simp [VrrpStateDelete]
          | true =>
              cases d with
              | nullDoc => simp [VrrpStateDelete]
              | mapDoc l =>
                  cases hfl : l.filter (fun p => p.1 != ifName) with
                  | nil => simp [VrrpStateDelete, hfl]
                  | cons a as => simp [VrrpStateDelete, hfl]

theorem VrrpStateDelete_unlock_then_close_witness :
    allOkFaults.connOk = true
    ∧ ((VrrpStateDelete allOkFaults "eth0" none).2.count EtcdEvent.unlock = 1
      ∧ (VrrpStateDelete allOkFaults "eth0" none).2.count EtcdEvent.close = 1
      ∧ (VrrpStateDelete allOkFaults "eth0" none).2.reverse.take 2
          = [EtcdEvent.close, EtcdEvent.unlock]) :=
  ⟨rfl, VrrpStateDelete_unlock_then_close allOkFaults "eth0" none rfl⟩

/-- C3: reconciling a VRF whose registry slot is non-empty with an empty
definition list (decodable document, path length at least 3) succeeds without
error, leaves zero instances registered for that VRF, issues exactly one
state-deletion per previously-registered instance, in order of its interface
name, and creates no new instances (no registry appends, no process
registrations). -/
theorem VrrpJsonConfig_empty_config_clears_vrf (env : Env) (path : List String)
    (str : String) (st : SysState)
    (hdec : env.decode str = some []) (hlen : 3 ≤ path.length)
    (hne : regGet st.VrrpInstanceMap (path.getD 2 "") ≠ []) :
    (VrrpJsonConfig env path str st).err = false
    ∧ regGet (VrrpJsonConfig env path str st).state.VrrpInstanceMap (path.getD 2 "") = []
    ∧ (VrrpJsonConfig env path str st).effects.filter isStateDeleteEff
        = (regGet st.VrrpInstanceMap (path.getD 2 "")).map
            (fun i => Effect.stateDelete i.IfName)
    ∧ (VrrpJsonConfig env path str st).effects.filter isInstAppendEff = []
    ∧ (VrrpJsonConfig env path str st).effects.filter isProcRegisterEff = [] := by
  have hlt : ¬ path.length < 3 := by omega
  simp [VrrpJsonConfig, hdec, hlt, regGet_regSet_self, teardownLoop_effects,
    teardownEffects_filter_stateDelete, teardownEffects_filter_instAppend,
    teardownEffects_filter_procRegister]

theorem VrrpJsonConfig_empty_config_clears_vrf_witness :
    envEmptyDoc.decode "[]" = some []
    ∧ 3 ≤ (["vrf", "name", "vrf1"] : List String).length
    ∧ regGet sysStateOneLive.VrrpInstanceMap
        ((["vrf", "name", "vrf1"] : List String).getD 2 "") ≠ []
    ∧ ((VrrpJsonConfig envEmptyDoc ["vrf", "name", "vrf1"] "[]" sysStateOneLive).err = false
      ∧ regGet (VrrpJsonConfig envEmptyDoc ["vrf", "name", "vrf1"] "[]"
          sysStateOneLive).state.VrrpInstanceMap
          ((["vrf", "name", "vrf1"] : List String).getD 2 "") = []
      ∧ (VrrpJsonConfig envEmptyDoc ["vrf", "name", "vrf1"] "[]"
          sysStateOneLive).effects.filter isStateDeleteEff
          = (regGet sysStateOneLive.VrrpInstanceMap
              ((["vrf", "name", "vrf1"] : List String).getD 2 "")).map
              (fun i => Effect.stateDelete i.IfName)
      ∧ (VrrpJsonConfig envEmptyDoc ["vrf", "name", "vrf1"] "[]"
          sysStateOneLive).effects.filter isInstAppendEff = []
      ∧ (VrrpJsonConfig envEmptyDoc ["vrf", "name", "vrf1"] "[]"
          sysStateOneLive).effects.filter isProcRegisterEff = []) :=
  ⟨rfl, by decide, by decide,
    VrrpJsonConfig_empty_config_clears_vrf envEmptyDoc ["vrf", "name", "vrf1"] "[]"
      sysStateOneLive rfl (by decide) (by decide)⟩

/-- C10: after any `VrrpJsonConfig` call on a decodable document with path
length at least 3, the registry slot for that VRF holds exactly one instance
per definition in the document, in document order, each carrying the
interface name and virtual-router id copied from its definition; this holds
for every environment, in particular when every render or start fails, in
which case those instances carry a nil process handle (an instance's handle
is present exactly when its config-file creation succeeded). -/
theorem VrrpJsonConfig_registry_matches_document (env : Env) (path : List String)
    (str : String) (st : SysState) (cfg : VrrpConfig)
    (hdec : env.decode str = some cfg) (hlen : 3 ≤ path.length) :
    (VrrpJsonConfig env path str st).err = false
    ∧ (regGet (VrrpJsonConfig env path str st).state.VrrpInstanceMap
        (path.getD 2 "")).map (fun i => (i.IfName, i.VrId))
        = cfg.map (fun v => (v.Interface, v.Vrid))
    ∧ (regGet (VrrpJsonConfig env path str st).state.VrrpInstanceMap
        (path.getD 2 "")).map (fun i => i.Process.isSome)
        = cfg.map (fun v => env.createOk v.Interface) := by
  have hlt : ¬ path.length < 3 := by omega
  cases cfg with
  | nil => simp [VrrpJsonConfig, hdec, hlt, regGet_regSet_self]
  | cons v rest =>
      simp [VrrpJsonConfig, hdec, hlt, createLoop_slot, regGet_regSet_self,
        instancesOf_map_pair, instancesOf_map_isSome]

theorem VrrpJsonConfig_registry_matches_document_witness :
    envTwoDefsNoCreate.decode "doc" = some [vrrpDefA, vrrpDefB]
    ∧ 3 ≤ (["vrf", "name", "vrf1"] : List String).length
    ∧ ((VrrpJsonConfig envTwoDefsNoCreate ["vrf", "name", "vrf1"] "doc" sysStateOneLive).err
          = false
      ∧ (regGet (VrrpJsonConfig envTwoDefsNoCreate ["vrf", "name", "vrf1"] "doc"
          sysStateOneLive).state.VrrpInstanceMap
          ((["vrf", "name", "vrf1"] : List String).getD 2 "")).map
          (fun i => (i.IfName, i.VrId))
          = ([vrrpDefA, vrrpDefB] : VrrpConfig).map (fun v => (v.Interface, v.Vrid))
      ∧ (regGet (VrrpJsonConfig envTwoDefsNoCreate ["vrf", "name", "vrf1"] "doc"
          sysStateOneLive).state.VrrpInstanceMap
          ((["vrf", "name", "vrf1"] : List String).getD 2 "")).map
          (fun i => i.Process.isSome)
          = ([vrrpDefA, vrrpDefB] : VrrpConfig).map
              (fun v => envTwoDefsNoCreate.createOk v.Interface)) :=
  ⟨rfl, by decide,
    VrrpJsonConfig_registry_matches_document envTwoDefsNoCreate
      ["vrf", "name", "vrf1"] "doc" sysStateOneLive [vrrpDefA, vrrpDefB] rfl (by decide)⟩

/-- C4: a config-file creation failure for the definition at position `k`
does not abort the loop: the call still succeeds, the failing definition's
instance is recorded in the registry with a nil process handle, and every
definition in the document (the subsequent ones included) still produces its
registry entry, in document order. -/
theorem VrrpJsonConfig_create_failure_does_not_abort (env : Env)
    (path : List String) (str : String) (st : SysState) (cfg : VrrpConfig)
    (k : Nat) (v : Vrrp)
    (hdec : env.decode str = some cfg) (hlen : 3 ≤ path.length)
    (hk : cfg[k]? = some v) (hfail : env.createOk v.Interface = false) :
    (VrrpJsonConfig env path str st).err = false
    ∧ (regGet (VrrpJsonConfig env path str st).state.VrrpInstanceMap
        (path.getD 2 ""))[k]?
        = some { IfName := v.Interface, VrId := v.Vrid, Process := none }
    ∧ (regGet (VrrpJsonConfig env path str st).state.VrrpInstanceMap
        (path.getD 2 "")).map (fun i => (i.IfName, i.VrId))
        = cfg.map (fun w => (w.Interface, w.Vrid)) := by
  have hlt : ¬ path.length < 3 := by omega
  cases cfg with
  | nil => simp at hk
  | cons w rest =>
      refine ⟨?_, ?_, ?_⟩
      · simp [VrrpJsonConfig, hdec, hlt]
      · simp only [VrrpJsonConfig, hdec, hlt]
        simp [createLoop_slot, regGet_regSet_self,
          instancesOf_get?_of_createFail env (w :: rest) _ k v hk hfail]
      · simp [VrrpJsonConfig, hdec, hlt, createLoop_slot, regGet_regSet_self,
          instancesOf_map_pair]

theorem VrrpJsonConfig_create_failure_does_not_abort_witness :
    envTwoDefsNoCreate.decode "doc" = some [vrrpDefA, vrrpDefB]
    ∧ 3 ≤ (["vrf", "name", "vrf1"] : List String).length
    ∧ ([vrrpDefA, vrrpDefB] : VrrpConfig)[0]? = some vrrpDefA
    ∧ envTwoDefsNoCreate.createOk vrrpDefA.Interface = false
    ∧ ((VrrpJsonConfig envTwoDefsNoCreate ["vrf", "name", "vrf1"] "doc"
          sysStateOneLive).err = false
      ∧ (regGet (VrrpJsonConfig envTwoDefsNoCreate ["vrf", "name", "vrf1"] "doc"
          sysStateOneLive).state.VrrpInstanceMap
          ((["vrf", "name", "vrf1"] : List String).getD 2 ""))[0]?
          = some { IfName := vrrpDefA.Interface, VrId := vrrpDefA.Vrid, Process := none }
      ∧ (regGet (VrrpJsonConfig envTwoDefsNoCreate ["vrf", "name", "vrf1"] "doc"
          sysStateOneLive).state.VrrpInstanceMap
          ((["vrf", "name", "vrf1"] : List String).getD 2 "")).map
          (fun i => (i.IfName, i.VrId))
          = ([vrrpDefA, vrrpDefB] : VrrpConfig).map (fun w => (w.Interface, w.Vrid))) :=
  ⟨rfl, by decide, by decide, rfl,
    VrrpJsonConfig_create_failure_does_not_abort envTwoDefsNoCreate
      ["vrf", "name", "vrf1"] "doc" sysStateOneLive [vrrpDefA, vrrpDefB] 0 vrrpDefA
      rfl (by decide) (by decide) rfl⟩

/-- C7, counterexample: at the claim's own input (VRF 3, prior instance with
id 2, one definition with id 1, interface eth0, role master, priority 100),
`VrrpVrfSync` does not emit the claimed sequence, because the source emits
the priority command before the state command, not after it. -/
theorem VrrpVrfSync_claimed_sequence_refuted :
    VrrpVrfSync sysStateVrf3.VrrpInstanceMap 3 [vrrpDefA] ≠
      [Effect.execLine "delete vrf name vrf3 vrrp 2",
       Effect.execLine "set vrf name vrf3 vrrp 1",
       Effect.execLine "set vrf name vrf3 vrrp 1 interface eth0",
       Effect.execLine "set vrf name vrf3 vrrp 1 state master",
       Effect.execLine "set vrf name vrf3 vrrp 1 priority 100",
       Effect.commit] := by
  decide

/-- C7, amended: at that input `VrrpVrfSync` emits exactly the delete for id
2, then the set-commands for id 1 in source order (id, interface eth0,
priority 100, state master), then one commit, and nothing else. -/
theorem VrrpVrfSync_emitted_sequence :
    VrrpVrfSync sysStateVrf3.VrrpInstanceMap 3 [vrrpDefA] =
      [Effect.execLine "delete vrf name vrf3 vrrp 2",
       Effect.execLine "set vrf name vrf3 vrrp 1",
       Effect.execLine "set vrf name vrf3 vrrp 1 interface eth0",
       Effect.execLine "set vrf name vrf3 vrrp 1 priority 100",
       Effect.execLine "set vrf name vrf3 vrrp 1 state master",
       Effect.commit] := by
  decide

/-- C8: `VrrpVrfDelete` on a VRF whose slot holds two instances, one live and
one with a nil handle, unregisters only the live process, emits exactly two
delete-commands (one per instance's virtual-router id, and no other command
lines), and issues exactly two state-deletions, one per instance's
interface. -/
theorem VrrpVrfDelete_two_instances_cleanup (env : Env) (vrfId : Nat)
    (st : SysState) (a b : VrrpInstance) (h : Nat)
    (hreg : regGet st.VrrpInstanceMap ("vrf" ++ toString vrfId) = [a, b])
    (ha : a.Process = some h) (hb : b.Process = none) :
    (VrrpVrfDelete env vrfId st).2.filter isProcUnregisterEff
        = [Effect.procUnregister h]
    ∧ (VrrpVrfDelete env vrfId st).2.filter isExecLineEff
        = [Effect.execLine ("delete vrf name vrf" ++ toString vrfId ++ " vrrp "
             ++ toString a.VrId),
           Effect.execLine ("delete vrf name vrf" ++ toString vrfId ++ " vrrp "
             ++ toString b.VrId)]
    ∧ (VrrpVrfDelete env vrfId st).2.filter isStateDeleteEff
        = [Effect.stateDelete a.IfName, Effect.stateDelete b.IfName] := by
  simp [VrrpVrfDelete, hreg, vrfDeleteLoop, ha, hb, isProcUnregisterEff,
    isExecLineEff, isStateDeleteEff, List.filter_append]

theorem VrrpVrfDelete_two_instances_cleanup_witness :
    regGet sysStateVrf2Two.VrrpInstanceMap ("vrf" ++ toString 2)
        = [{ IfName := "eth3", VrId := 10, Process := some 8 },
           { IfName := "eth4", VrId := 11, Process := none }]
    ∧ (VrrpInstance.Process { IfName := "eth3", VrId := 10, Process := some 8 } = some 8)
    ∧ (VrrpInstance.Process { IfName := "eth4", VrId := 11, Process := none } = none)
    ∧ ((VrrpVrfDelete envEmptyDoc 2 sysStateVrf2Two).2.filter isProcUnregisterEff
          = [Effect.procUnregister 8]
      ∧ (VrrpVrfDelete envEmptyDoc 2 sysStateVrf2Two).2.filter isExecLineEff
          = [Effect.execLine ("delete vrf name vrf" ++ toString 2 ++ " vrrp "
               ++ toString 10),
             Effect.execLine ("delete vrf name vrf" ++ toString 2 ++ " vrrp "
               ++ toString 11)]
      ∧ (VrrpVrfDelete envEmptyDoc 2 sysStateVrf2Two).2.filter isStateDeleteEff
          = [Effect.stateDelete "eth3", Effect.stateDelete "eth4"]) :=
  ⟨by decide, rfl, rfl,
    VrrpVrfDelete_two_instances_cleanup envEmptyDoc 2 sysStateVrf2Two
      { IfName := "eth3", VrId := 10, Process := some 8 }
      { IfName := "eth4", VrId := 11, Process := none } 8 (by decide) rfl rfl⟩

/-- C5: the advert_int line of the rendered configuration artifact (the
eighteenth line of the template output, present for every definition) carries
the literal value 10 when the definition's advertisement interval is zero,
and the verbatim decimal interval otherwise. -/
theorem vrrpConfigRender_advert_int_field (vrrp : Vrrp) :
    (vrrp.AdvertisementInterval = 0 →
      (vrrpConfigRenderLines vrrp)[17]? = some "    advert_int 10")
    ∧ (vrrp.AdvertisementInterval ≠ 0 →
      (vrrpConfigRenderLines vrrp)[17]?
        = some ("    advert_int " ++ toString vrrp.AdvertisementInterval)) := by
  constructor <;> intro h <;> simp [vrrpConfigRenderLines, h]

theorem vrrpConfigRender_advert_int_field_witness :
    (vrrpDefA.AdvertisementInterval = 0
      ∧ (vrrpConfigRenderLines vrrpDefA)[17]? = some "    advert_int 10")
    ∧ (vrrpDefB.AdvertisementInterval ≠ 0
      ∧ (vrrpConfigRenderLines vrrpDefB)[17]?
          = some ("    advert_int " ++ toString vrrpDefB.AdvertisementInterval)) :=
  ⟨⟨rfl, (vrrpConfigRender_advert_int_field vrrpDefA).1 rfl⟩,
   ⟨by decide, (vrrpConfigRender_advert_int_field vrrpDefB).2 (by decide)⟩⟩

end Zebra
